import Mathlib

/-
Verification development for the GitHub App installation / OAuth linking
server (src/server.py).  The Python source is shallowly embedded below:

* Scalar JSON / query-parameter values are `PyVal` (integers or strings),
  with `pyStr` mirroring the Python `str(...)` conversion used by
  `user_owns_installation`.
* The PyJWT token codec used by `generate_state_token` / `decode_state_token`
  is modelled at the byte level: a token is the serialized payload followed
  by an idealized message-authentication tag over it (`mac`), and decoding
  checks structure, then the tag, then parses the payload and validates the
  `exp` claim exactly as `jwt.decode` does (expiry when `exp <= now`,
  `ExpiredSignatureError` distinct from the other `PyJWTError` failures).
  Time (`time.time()`) is passed explicitly as `now`.
* Outbound HTTP calls are modelled by their delivered outcome: either a
  response value, or a raised transport exception (`CallResult.exn`), since
  nothing in the source catches httpx errors.
* The module-level dict `INSTALLATIONS_DB` is threaded through
  `github_callback` explicitly as a finite map `Db`, and the handler also
  returns the list of outbound calls it performed, so that "no network call
  was made" is expressible.
-/

namespace GhAppServer

/-- A scalar value as it appears in query parameters and JSON bodies:
GitHub sends installation ids as JSON integers in API responses and as
decimal strings in callback query parameters. -/
inductive PyVal where
  | intV : Int → PyVal
  | strV : String → PyVal
deriving DecidableEq

/-- Python `str(...)` applied to such a scalar. -/
def pyStr : PyVal → String
  | PyVal.intV n => toString n
  | PyVal.strV s => s

/-- The JWT claim set used by the state-token codec: `generate_state_token`
puts in `account_id` and `exp`; a decoded payload may lack either claim. -/
structure Payload where
  account_id : Option String
  exp : Option Nat
deriving DecidableEq

/-- Serialization of a string claim value: length-prefixed character codes. -/
def serStr (s : String) : List Nat :=
  s.length :: s.toList.map Char.toNat

/-- Serialization of an optional string claim (presence flag then value). -/
def serOptStr : Option String → List Nat
  | none => [0]
  | some s => 1 :: serStr s

/-- Serialization of an optional numeric claim (presence flag then value). -/
def serOptNat : Option Nat → List Nat
  | none => [0]
  | some e => [1, e]

/-- Serialization of the whole claim set (the JSON payload of the JWT). -/
def serialize (p : Payload) : List Nat :=
  serOptStr p.account_id ++ serOptNat p.exp

/-- Idealized HMAC-SHA256: a keyed tag over the serialized payload.  It is
modelled as an injective, length-preserving keyed transform, which captures
the unforgeability assumption the codec relies on. -/
def mac (secret : Nat) (msg : List Nat) : List Nat :=
  msg.map (fun b => b + secret + 1)

/-- `jwt.encode(payload, secret)`: the serialized payload followed by its
authentication tag. -/
def jwtEncode (secret : Nat) (p : Payload) : List Nat :=
  serialize p ++ mac secret (serialize p)

/-- Parse a length-prefixed string, returning the remaining input. -/
def parseStr (l : List Nat) : Option (String × List Nat) :=
  match l with
  | [] => none
  | n :: rest =>
    if n ≤ rest.length then
      some (String.mk ((rest.take n).map Char.ofNat), rest.drop n)
    else none

/-- Parse an optional string claim. -/
def parseOptStr (l : List Nat) : Option (Option String × List Nat) :=
  match l with
  | 0 :: rest => some (none, rest)
  | 1 :: rest =>
    match parseStr rest with
    | none => none
    | some (s, r) => some (some s, r)
  | _ => none

/-- Parse an optional numeric claim. -/
def parseOptNat (l : List Nat) : Option (Option Nat × List Nat) :=
  match l with
  | 0 :: rest => some (none, rest)
  | 1 :: e :: rest => some (some e, rest)
  | _ => none

/-- Parse a serialized claim set; trailing bytes make the payload malformed,
as trailing garbage does for the JSON payload of a real JWT. -/
def parsePayload (l : List Nat) : Option Payload :=
  match parseOptStr l with
  | none => none
  | some (a, r1) =>
    match parseOptNat r1 with
    | none => none
    | some (e, r2) =>
      if r2 = [] then some { account_id := a, exp := e } else none

/-- The failure modes of `jwt.decode`: `ExpiredSignatureError`, signature
mismatch, and every other malformed-token failure (`DecodeError`); the last
two are both subclasses of `PyJWTError`. -/
inductive JwtError where
  | expired
  | invalidSignature
  | decodeError
deriving DecidableEq

/-- `jwt.decode(token, secret, algorithms=[...])`: check the token structure,
verify the tag, parse the payload, then validate the `exp` claim when it is
present (PyJWT raises `ExpiredSignatureError` when `exp <= now`). -/
def jwtDecode (secret now : Nat) (t : List Nat) : Except JwtError Payload :=
  if t.length % 2 ≠ 0 then Except.error JwtError.decodeError
  else if t.drop (t.length / 2) ≠ mac secret (t.take (t.length / 2)) then
    Except.error JwtError.invalidSignature
  else
    match parsePayload (t.take (t.length / 2)) with
    | none => Except.error JwtError.decodeError
    | some payload =>
      match payload.exp with
      | some e => if e ≤ now then Except.error JwtError.expired else Except.ok payload
      | none => Except.ok payload

/-- `generate_state_token` (src/server.py lines 25-34): a JWT whose payload
holds the `account_id` and `exp = int(time.time()) + 300`, signed with the
module secret. -/
def generate_state_token (secret now : Nat) (account_id : String) : List Nat :=
  jwtEncode secret { account_id := some account_id, exp := some (now + 300) }

/-- Outcome of `decode_state_token`: the account id, an `HTTPException`
(status code and detail), or an uncaught Python exception escaping the
function. -/
inductive DecodeOutcome where
  | ok : String → DecodeOutcome
  | httpError : Nat → String → DecodeOutcome
  | keyError : DecodeOutcome
deriving DecidableEq

/-- `decode_state_token` (src/server.py lines 37-48): `jwt.decode`, then
`payload["account_id"]`.  `ExpiredSignatureError` is mapped to HTTP 400
"State token has expired.", any other `PyJWTError` to HTTP 400
"Invalid state token.".  A `KeyError` from the subscript (payload parsed
and verified but lacking `account_id`) is caught by neither handler. -/
def decode_state_token (secret now : Nat) (token : List Nat) : DecodeOutcome :=
  match jwtDecode secret now token with
  | Except.error JwtError.expired => DecodeOutcome.httpError 400 "State token has expired."
  | Except.error JwtError.invalidSignature => DecodeOutcome.httpError 400 "Invalid state token."
  | Except.error JwtError.decodeError => DecodeOutcome.httpError 400 "Invalid state token."
  | Except.ok payload =>
    match payload.account_id with
    | some a => DecodeOutcome.ok a
    | none => DecodeOutcome.keyError

/-- The response to `GET /user/installations`: the HTTP status and the
`installations` field of the JSON body (each installation represented by its
`id` field), `none` when the field is absent (`data.get` default). -/
structure InstallationsResponse where
  status : Nat
  installations : Option (List PyVal)
deriving DecidableEq

/-- `user_owns_installation` (src/server.py lines 270-289) applied to a
delivered response: `False` unless the status is 200, otherwise scan
`data.get("installations", [])` for `str(inst["id"]) == str(installation_id)`. -/
def user_owns_installation (resp : InstallationsResponse) (installation_id : PyVal) : Bool :=
  if resp.status ≠ 200 then false
  else (resp.installations.getD []).any fun inst => pyStr inst == pyStr installation_id

/-- Outcome of an outbound HTTP call: a delivered value, or a raised
transport exception (timeout, connection failure, ...) named by its Python
exception type. -/
inductive CallResult (α : Type) where
  | ok : α → CallResult α
  | exn : String → CallResult α
deriving DecidableEq

/-- Python truthiness of an optional string (`not x` is true for both `None`
and the empty string). -/
def pyTruthyOptStr : Option String → Bool
  | none => false
  | some s => if s = "" then false else true

/-- Python truthiness of an optional token value. -/
def pyTruthyBytes : Option (List Nat) → Bool
  | none => false
  | some t => if t = [] then false else true

/-- `exchange_code_for_user_token` (src/server.py lines 241-267) applied to
the outcome of the POST to the token endpoint: a raised transport exception
propagates; otherwise `resp_data.get("access_token")` is returned, with any
falsy value mapped to `None`. -/
def exchange_code_for_user_token (call : CallResult (Option String)) : CallResult (Option String) :=
  match call with
  | CallResult.exn e => CallResult.exn e
  | CallResult.ok access_token =>
    if pyTruthyOptStr access_token then CallResult.ok access_token else CallResult.ok none

/-- The outcomes the external authority delivers for the two outbound calls
a callback can make. -/
structure Env where
  exchangeResponse : CallResult (Option String)
  installationsResponse : CallResult InstallationsResponse

/-- The query parameters of a callback request (`setup_action` is read by
nobody).  The `state` value is the raw token string, kept as token bytes. -/
structure CallbackParams where
  code : Option String
  installation_id : Option String
  state : Option (List Nat)

/-- The in-memory `INSTALLATIONS_DB` dict: account id to installation id. -/
def Db : Type := String → Option String

/-- Python dict assignment `INSTALLATIONS_DB[account_id] = installation_id`. -/
def dbSet (db : Db) (account_id installation_id : String) : Db :=
  fun k => if k = account_id then some installation_id else db k

/-- Outcome of the callback handler: the redirect response, an
`HTTPException` (status and detail), or an uncaught Python exception. -/
inductive CallbackResult where
  | redirect : String → CallbackResult
  | httpError : Nat → String → CallbackResult
  | pythonError : String → CallbackResult
deriving DecidableEq

/-- The outbound calls `github_callback` can make, in order. -/
inductive OutboundCall where
  | exchangeCall
  | installationsCall
deriving DecidableEq

/-- `github_callback` (src/server.py lines 158-201): validate the three
query parameters, decode the state token, exchange the code, check
ownership, then store the mapping and redirect.  The result also carries
the updated directory and the list of outbound calls performed. -/
def github_callback (secret now : Nat) (db : Db) (p : CallbackParams) (env : Env) :
    CallbackResult × Db × List OutboundCall :=
  if pyTruthyOptStr p.code = false then
    (CallbackResult.httpError 400 "Missing OAuth code.", db, [])
  else if pyTruthyOptStr p.installation_id = false then
    (CallbackResult.httpError 400 "Missing installation_id.", db, [])
  else if pyTruthyBytes p.state = false then
    (CallbackResult.httpError 400 "Missing state token.", db, [])
  else
    match decode_state_token secret now (p.state.getD []) with
    | DecodeOutcome.httpError s d => (CallbackResult.httpError s d, db, [])
    | DecodeOutcome.keyError => (CallbackResult.pythonError "KeyError", db, [])
    | DecodeOutcome.ok account_id =>
      match exchange_code_for_user_token env.exchangeResponse with
      | CallResult.exn e => (CallbackResult.pythonError e, db, [OutboundCall.exchangeCall])
      | CallResult.ok none =>
        (CallbackResult.httpError 400 "Failed to exchange code for user token.", db,
          [OutboundCall.exchangeCall])
      | CallResult.ok (some _user_token) =>
        match env.installationsResponse with
        | CallResult.exn e =>
          (CallbackResult.pythonError e, db,
            [OutboundCall.exchangeCall, OutboundCall.installationsCall])
        | CallResult.ok resp =>
          if user_owns_installation resp (PyVal.strV (p.installation_id.getD "")) then
            (CallbackResult.redirect "/setup",
              dbSet db account_id (p.installation_id.getD ""),
              [OutboundCall.exchangeCall, OutboundCall.installationsCall])
          else
            (CallbackResult.httpError 403 "Installation is not associated with this user.", db,
              [OutboundCall.exchangeCall, OutboundCall.installationsCall])

/-- All three required query parameters are (truthily) present. -/
def paramsOk (p : CallbackParams) : Prop :=
  pyTruthyOptStr p.code = true ∧ pyTruthyOptStr p.installation_id = true ∧
    pyTruthyBytes p.state = true

/-- An empty directory, for concrete scenarios. -/
def emptyDb : Db := fun _ => none

/-- A concrete state token: issued at time 0 for account "acct-1" under
secret 7. -/
def tokenS : List Nat := generate_state_token 7 0 "acct-1"

/-- A complete callback request carrying `tokenS`. -/
def pGood : CallbackParams :=
  { code := some "abc", installation_id := some "999", state := some tokenS }

/-- The same callback request with the `code` parameter absent. -/
def pMissingCode : CallbackParams :=
  { code := none, installation_id := some "999", state := some tokenS }

/-- A 200 listing that contains installation id 999 (as a JSON integer). -/
def respOwned : InstallationsResponse :=
  { status := 200, installations := some [PyVal.intV 999] }

/-- A 200 listing that does not contain installation id 999. -/
def respDenied : InstallationsResponse :=
  { status := 200, installations := some [PyVal.intV 123] }

/-- Both outbound calls succeed and the listing contains 999. -/
def envOk : Env :=
  { exchangeResponse := CallResult.ok (some "u-tok"),
    installationsResponse := CallResult.ok respOwned }

/-- Both outbound calls succeed but the listing does not contain 999. -/
def envDenied : Env :=
  { exchangeResponse := CallResult.ok (some "u-tok"),
    installationsResponse := CallResult.ok respDenied }

/-- The code-exchange call times out. -/
def envTimeout : Env :=
  { exchangeResponse := CallResult.exn "httpx.ReadTimeout",
    installationsResponse := CallResult.ok respOwned }

/-- The installation-listing call times out. -/
def envTimeoutB : Env :=
  { exchangeResponse := CallResult.ok (some "u-tok"),
    installationsResponse := CallResult.exn "httpx.ConnectTimeout" }

/-! ## Codec lemmas -/

/-- Parsing is a left inverse of string serialization. -/
theorem parseStr_serStr (s : String) (r : List Nat) :
    parseStr (serStr s ++ r) = some (s, r) := by
  obtain ⟨data⟩ := s
  have hlen : (data.map Char.toNat).length = data.length := List.length_map _ _
  show parseStr (data.length :: (data.map Char.toNat ++ r)) = some (String.mk data, r)
  rw [parseStr]
  rw [if_pos (by rw [List.length_append, hlen]; omega)]
  rw [← hlen, List.take_left, List.drop_left]
  have hmap : (data.map Char.toNat).map Char.ofNat = data := by
    rw [List.map_map]
    have hcomp : Char.ofNat ∘ Char.toNat = id := funext fun c => Char.ofNat_toNat c
    rw [hcomp, List.map_id]
  rw [hmap]

/-- Parsing is a left inverse of optional-string serialization. -/
theorem parseOptStr_serOptStr (a : Option String) (r : List Nat) :
    parseOptStr (serOptStr a ++ r) = some (a, r) := by
  cases a with
  | none => rfl
  | some s =>
    show parseOptStr (1 :: (serStr s ++ r)) = some (some s, r)
    rw [parseOptStr]
    rw [parseStr_serStr]

/-- Parsing is a left inverse of optional-number serialization. -/
theorem parseOptNat_serOptNat (e : Option Nat) (r : List Nat) :
    parseOptNat (serOptNat e ++ r) = some (e, r) := by
  cases e with
  | none => rfl
  | some n => rfl

/-- Parsing is a left inverse of claim-set serialization. -/
theorem parsePayload_serialize (p : Payload) :
    parsePayload (serialize p) = some p := by
  obtain ⟨a, e⟩ := p
  show parsePayload (serOptStr a ++ serOptNat e) = some ⟨a, e⟩
  rw [parsePayload]
  rw [parseOptStr_serOptStr]
  have h2 := parseOptNat_serOptNat e []
  rw [List.append_nil] at h2
  show (match parseOptNat (serOptNat e) with
        | none => none
        | some (x, r2) => if r2 = [] then some (Payload.mk a x) else none) =
      some (Payload.mk a e)
  rw [h2]
  rfl

/-- Decoding a correctly tagged token reduces to parsing its payload and
checking expiry. -/
theorem jwtDecode_append_mac (secret now : Nat) (m : List Nat) :
    jwtDecode secret now (m ++ mac secret m) =
      (match parsePayload m with
       | none => Except.error JwtError.decodeError
       | some payload =>
         match payload.exp with
         | some e => if e ≤ now then Except.error JwtError.expired else Except.ok payload
         | none => Except.ok payload) := by
  have hm : (mac secret m).length = m.length := List.length_map _ _
  have hlen : (m ++ mac secret m).length = m.length + m.length := by
    rw [List.length_append, hm]
  have hdiv : (m ++ mac secret m).length / 2 = m.length := by omega
  rw [jwtDecode]
  rw [if_neg (by omega)]
  rw [hdiv, List.take_left, List.drop_left]
  rw [if_neg (fun h => h rfl)]

/-- Decoding an encoded claim set yields it back, up to the expiry check. -/
theorem jwtDecode_jwtEncode (secret now : Nat) (p : Payload) :
    jwtDecode secret now (jwtEncode secret p) =
      (match p.exp with
       | some e => if e ≤ now then Except.error JwtError.expired else Except.ok p
       | none => Except.ok p) := by
  rw [jwtEncode, jwtDecode_append_mac, parsePayload_serialize]

/-- A fresh state token decodes to its account id at any time strictly
before expiry. -/
theorem decode_generate_ok (secret issuedAt now : Nat) (account_id : String)
    (h : now < issuedAt + 300) :
    decode_state_token secret now (generate_state_token secret issuedAt account_id) =
      DecodeOutcome.ok account_id := by
  rw [decode_state_token, generate_state_token, jwtDecode_jwtEncode]
  simp only []
  rw [if_neg (by omega)]

/-- A state token fails with the expired-state error at any time from its
expiry on. -/
theorem decode_generate_expired (secret issuedAt now : Nat) (account_id : String)
    (h : issuedAt + 300 ≤ now) :
    decode_state_token secret now (generate_state_token secret issuedAt account_id) =
      DecodeOutcome.httpError 400 "State token has expired." := by
  rw [decode_state_token, generate_state_token, jwtDecode_jwtEncode]
  simp only []
  rw [if_pos (by omega)]

/-- Every `HTTPException` raised by `decode_state_token` has status 400. -/
theorem decode_state_token_error_status (secret now : Nat) (t : List Nat) (s : Nat) (d : String)
    (h : decode_state_token secret now t = DecodeOutcome.httpError s d) : s = 400 := by
  rw [decode_state_token] at h
  cases hj : jwtDecode secret now t with
  | error e =>
    cases e <;> (rw [hj] at h; injection h with h1 h2; omega)
  | ok payload =>
    rw [hj] at h
    cases ha : payload.account_id <;> simp [ha] at h

/-- A truthy optional string is not `None`. -/
theorem pyTruthyOptStr_ne_none {x : Option String} (h : pyTruthyOptStr x = true) : x ≠ none := by
  cases x with
  | none => simp [pyTruthyOptStr] at h
  | some s => simp

/-- A truthy optional token is not `None`. -/
theorem pyTruthyBytes_ne_none {x : Option (List Nat)} (h : pyTruthyBytes x = true) : x ≠ none := by
  cases x with
  | none => simp [pyTruthyBytes] at h
  | some t => simp

/-! ## Claims -/

/-- C1 (counterexample): `user_owns_installation` answers true for a listing
that contains the integer id 999 and the claimed string id "999", even
though the claimed value does not occur in the listing by exact identity
comparison, refuting the only-if direction of the claimed equivalence. -/
theorem user_owns_installation_true_without_identity_match :
    user_owns_installation { status := 200, installations := some [PyVal.intV 999] }
      (PyVal.strV "999") = true ∧
    PyVal.strV "999" ∉ ([PyVal.intV 999] : List PyVal) := by decide

/-- C1 (amended): `user_owns_installation` returns true iff the authority
responded with status 200 and the claimed id matches some listed id after
both sides are converted to strings; in particular it returns false, not an
error, on a non-success status, on an empty listing, and when no listed id
matches. -/
theorem user_owns_installation_iff_string_match (resp : InstallationsResponse)
    (installation_id : PyVal) :
    user_owns_installation resp installation_id = true ↔
      resp.status = 200 ∧
        ∃ inst ∈ resp.installations.getD [], pyStr inst = pyStr installation_id := by
  rw [user_owns_installation]
  by_cases h : resp.status = 200
  · rw [if_neg (fun hne => hne h)]
    simp [List.any_eq_true, h]
  · rw [if_pos h]
    simp [h]

/-- C2: the directory commit happens only after parameter validation, state
decoding, code exchange and the ownership check have all succeeded; any
non-redirect outcome leaves the directory exactly as it was. -/
theorem github_callback_commit_only_after_checks (secret now : Nat) (db : Db)
    (p : CallbackParams) (env : Env) :
    ((github_callback secret now db p env).1 ≠ CallbackResult.redirect "/setup" →
      (github_callback secret now db p env).2.1 = db) ∧
    ((github_callback secret now db p env).1 = CallbackResult.redirect "/setup" →
      ∃ a tok resp,
        paramsOk p ∧
        decode_state_token secret now (p.state.getD []) = DecodeOutcome.ok a ∧
        exchange_code_for_user_token env.exchangeResponse = CallResult.ok (some tok) ∧
        env.installationsResponse = CallResult.ok resp ∧
        user_owns_installation resp (PyVal.strV (p.installation_id.getD "")) = true ∧
        (github_callback secret now db p env).2.1 = dbSet db a (p.installation_id.getD "")) := by
  cases hcode : pyTruthyOptStr p.code with
  | false => simp [github_callback, hcode]
  | true =>
  cases hiid : pyTruthyOptStr p.installation_id with
  | false => simp [github_callback, hcode, hiid]
  | true =>
  cases hstate : pyTruthyBytes p.state with
  | false => simp [github_callback, hcode, hiid, hstate]
  | true =>
  cases hdec : decode_state_token secret now (p.state.getD []) with
  | httpError s d => simp [github_callback, hcode, hiid, hstate, hdec]
  | keyError => simp [github_callback, hcode, hiid, hstate, hdec]
  | ok a =>
  cases hex : exchange_code_for_user_token env.exchangeResponse with
  | exn e => simp [github_callback, hcode, hiid, hstate, hdec, hex]
  | ok tok =>
  cases tok with
  | none => simp [github_callback, hcode, hiid, hstate, hdec, hex]
  | some t =>
  cases hinst : env.installationsResponse with
  | exn e => simp [github_callback, hcode, hiid, hstate, hdec, hex, hinst]
  | ok resp =>
  cases howns : user_owns_installation resp (PyVal.strV (p.installation_id.getD "")) with
  | false => simp [github_callback, hcode, hiid, hstate, hdec, hex, hinst, howns]
  | true =>
    constructor
    · intro hne
      exfalso
      exact hne (by simp [github_callback, hcode, hiid, hstate, hdec, hex, hinst, howns])
    · intro _
      exact ⟨a, t, resp, ⟨hcode, hiid, hstate⟩, rfl, rfl, rfl, howns,
        by simp [github_callback, hcode, hiid, hstate, hdec, hex, hinst, howns]⟩

/-- C2 (witness): a callback with a missing code leaves the directory
untouched. -/
theorem github_callback_commit_only_after_checks_witness :
    (github_callback 7 0 emptyDb pMissingCode envOk).2.1 = emptyDb :=
  (github_callback_commit_only_after_checks 7 0 emptyDb pMissingCode envOk).1 (by decide)

/-- C3: decoding a freshly issued state token at any time strictly before
its expiry returns the encoded account identifier. -/
theorem decode_generate_roundtrip (secret issuedAt now : Nat) (account_id : String)
    (h : now < issuedAt + 300) :
    decode_state_token secret now (generate_state_token secret issuedAt account_id) =
      DecodeOutcome.ok account_id :=
  decode_generate_ok secret issuedAt now account_id h

/-- C3 (witness): a token issued at time 0 decodes at time 299. -/
theorem decode_generate_roundtrip_witness :
    decode_state_token 7 299 (generate_state_token 7 0 "acct-1") = DecodeOutcome.ok "acct-1" :=
  decode_generate_roundtrip 7 0 299 "acct-1" (by omega)

/-- C4: a token issued at time T with the fixed 300 second TTL fails with
the expired-state HTTP 400 error at time T + 300 + 1 and still decodes to
its account id at time T + 300 - 1. -/
theorem state_token_expiry_boundary (secret T : Nat) (account_id : String) :
    decode_state_token secret (T + 300 + 1) (generate_state_token secret T account_id) =
      DecodeOutcome.httpError 400 "State token has expired." ∧
    decode_state_token secret (T + 300 - 1) (generate_state_token secret T account_id) =
      DecodeOutcome.ok account_id := by
  constructor
  · exact decode_generate_expired secret T (T + 300 + 1) account_id (by omega)
  · have h : T + 300 - 1 = T + 299 := by omega
    rw [h]
    exact decode_generate_ok secret T (T + 299) account_id (by omega)

/-- C5: a validly signed, unexpired token whose payload lacks the
`account_id` claim makes `decode_state_token` end in a `KeyError`, which
neither `except` clause catches, instead of the HTTP 400 invalid-token
error the function is documented to raise. -/
theorem decode_missing_account_id_keyError :
    decode_state_token 7 0 (jwtEncode 7 { account_id := none, exp := some 300 }) =
      DecodeOutcome.keyError := by decide

/-- C6: a callback missing any of `code`, `installation_id` or `state`
fails with an HTTP 400 missing-parameter error and performs no outbound
call. -/
theorem github_callback_missing_param_no_outbound (secret now : Nat) (db : Db)
    (p : CallbackParams) (env : Env)
    (h : p.code = none ∨ p.installation_id = none ∨ p.state = none) :
    ((github_callback secret now db p env).1 =
        CallbackResult.httpError 400 "Missing OAuth code." ∨
      (github_callback secret now db p env).1 =
        CallbackResult.httpError 400 "Missing installation_id." ∨
      (github_callback secret now db p env).1 =
        CallbackResult.httpError 400 "Missing state token.") ∧
    (github_callback secret now db p env).2.2 = [] := by
  cases hcode : pyTruthyOptStr p.code with
  | false =>
    exact ⟨Or.inl (by simp [github_callback, hcode]), by simp [github_callback, hcode]⟩
  | true =>
  cases hiid : pyTruthyOptStr p.installation_id with
  | false =>
    exact ⟨Or.inr (Or.inl (by simp [github_callback, hcode, hiid])),
      by simp [github_callback, hcode, hiid]⟩
  | true =>
  cases hstate : pyTruthyBytes p.state with
  | false =>
    exact ⟨Or.inr (Or.inr (by simp [github_callback, hcode, hiid, hstate])),
      by simp [github_callback, hcode, hiid, hstate]⟩
  | true =>
    exfalso
    rcases h with h | h | h
    · simp [h, pyTruthyOptStr] at hcode
    · simp [h, pyTruthyOptStr] at hiid
    · simp [h, pyTruthyBytes] at hstate

/-- C6 (witness): a callback with no `code` parameter fails with the
missing-code error and an empty outbound-call trace. -/
theorem github_callback_missing_param_no_outbound_witness :
    ((github_callback 7 0 emptyDb pMissingCode envOk).1 =
        CallbackResult.httpError 400 "Missing OAuth code." ∨
      (github_callback 7 0 emptyDb pMissingCode envOk).1 =
        CallbackResult.httpError 400 "Missing installation_id." ∨
      (github_callback 7 0 emptyDb pMissingCode envOk).1 =
        CallbackResult.httpError 400 "Missing state token.") ∧
    (github_callback 7 0 emptyDb pMissingCode envOk).2.2 = [] :=
  github_callback_missing_param_no_outbound 7 0 emptyDb pMissingCode envOk (Or.inl rfl)

/-- C7: the outcome of a callback is determined by the failure kind as
specified: missing parameter yields 400, a state-decoding failure yields
400 with the decoding detail, a failed code exchange yields 400, a failed
ownership check yields 403, and the all-checks-pass path yields the
redirect to the confirmation view. -/
theorem github_callback_status_by_failure_kind (secret now : Nat) (db : Db)
    (p : CallbackParams) (env : Env) :
    ((p.code = none ∨ p.installation_id = none ∨ p.state = none) →
      ∃ d, (github_callback secret now db p env).1 = CallbackResult.httpError 400 d) ∧
    (∀ s d, paramsOk p →
      decode_state_token secret now (p.state.getD []) = DecodeOutcome.httpError s d →
      (github_callback secret now db p env).1 = CallbackResult.httpError 400 d) ∧
    (paramsOk p →
      (∃ a, decode_state_token secret now (p.state.getD []) = DecodeOutcome.ok a) →
      exchange_code_for_user_token env.exchangeResponse = CallResult.ok none →
      (github_callback secret now db p env).1 =
        CallbackResult.httpError 400 "Failed to exchange code for user token.") ∧
    (∀ resp, paramsOk p →
      (∃ a, decode_state_token secret now (p.state.getD []) = DecodeOutcome.ok a) →
      (∃ tok, exchange_code_for_user_token env.exchangeResponse = CallResult.ok (some tok)) →
      env.installationsResponse = CallResult.ok resp →
      user_owns_installation resp (PyVal.strV (p.installation_id.getD "")) = false →
      (github_callback secret now db p env).1 =
        CallbackResult.httpError 403 "Installation is not associated with this user.") ∧
    (∀ resp, paramsOk p →
      (∃ a, decode_state_token secret now (p.state.getD []) = DecodeOutcome.ok a) →
      (∃ tok, exchange_code_for_user_token env.exchangeResponse = CallResult.ok (some tok)) →
      env.installationsResponse = CallResult.ok resp →
      user_owns_installation resp (PyVal.strV (p.installation_id.getD "")) = true →
      (github_callback secret now db p env).1 = CallbackResult.redirect "/setup") := by
  refine ⟨?_, ?_, ?_, ?_, ?_⟩
  · intro h
    cases hcode : pyTruthyOptStr p.code with
    | false => exact ⟨"Missing OAuth code.", by simp [github_callback, hcode]⟩
    | true =>
    cases hiid : pyTruthyOptStr p.installation_id with
    | false => exact ⟨"Missing installation_id.", by simp [github_callback, hcode, hiid]⟩
    | true =>
    cases hstate : pyTruthyBytes p.state with
    | false => exact ⟨"Missing state token.", by simp [github_callback, hcode, hiid, hstate]⟩
    | true =>
      exfalso
      rcases h with h | h | h
      · simp [h, pyTruthyOptStr] at hcode
      · simp [h, pyTruthyOptStr] at hiid
      · simp [h, pyTruthyBytes] at hstate
  · rintro s d ⟨hc, hi, hs⟩ hdec
    have h400 : s = 400 := decode_state_token_error_status secret now _ s d hdec
    subst h400
    simp [github_callback, hc, hi, hs, hdec]
  · rintro ⟨hc, hi, hs⟩ ⟨a, hdec⟩ hex
    simp [github_callback, hc, hi, hs, hdec, hex]
  · rintro resp ⟨hc, hi, hs⟩ ⟨a, hdec⟩ ⟨tok, hex⟩ hinst howns
    simp [github_callback, hc, hi, hs, hdec, hex, hinst, howns]
  · rintro resp ⟨hc, hi, hs⟩ ⟨a, hdec⟩ ⟨tok, hex⟩ hinst howns
    simp [github_callback, hc, hi, hs, hdec, hex, hinst, howns]

/-- C7 (witness): with a valid token, a successful exchange and a listing
not containing the claimed id, the callback fails with 403. -/
theorem github_callback_status_by_failure_kind_witness :
    (github_callback 7 0 emptyDb pGood envDenied).1 =
      CallbackResult.httpError 403 "Installation is not associated with this user." :=
  (github_callback_status_by_failure_kind 7 0 emptyDb pGood envDenied).2.2.2.1 respDenied
    ⟨rfl, rfl, by decide⟩ ⟨"acct-1", by decide⟩ ⟨"u-tok", by decide⟩ rfl (by decide)

/-- C8 (counterexample): two callbacks presenting the same state token both
complete successfully, the second one running against the directory the
first one produced: nothing consumes the token. -/
theorem state_token_replay_accepted :
    (github_callback 7 0 emptyDb pGood envOk).1 = CallbackResult.redirect "/setup" ∧
    (github_callback 7 0 (github_callback 7 0 emptyDb pGood envOk).2.1 pGood envOk).1 =
      CallbackResult.redirect "/setup" := by decide

/-- C8 (amended): the callback handler keeps no record of consumed tokens:
its outcome and its outbound-call trace are independent of the directory
state, so a state token is accepted unchanged on every presentation within
its validity window. -/
theorem github_callback_outcome_independent_of_db (secret now : Nat) (db1 db2 : Db)
    (p : CallbackParams) (env : Env) :
    (github_callback secret now db1 p env).1 = (github_callback secret now db2 p env).1 ∧
    (github_callback secret now db1 p env).2.2 = (github_callback secret now db2 p env).2.2 := by
  cases hcode : pyTruthyOptStr p.code with
  | false => simp [github_callback, hcode]
  | true =>
  cases hiid : pyTruthyOptStr p.installation_id with
  | false => simp [github_callback, hcode, hiid]
  | true =>
  cases hstate : pyTruthyBytes p.state with
  | false => simp [github_callback, hcode, hiid, hstate]
  | true =>
  cases hdec : decode_state_token secret now (p.state.getD []) with
  | httpError s d => simp [github_callback, hcode, hiid, hstate, hdec]
  | keyError => simp [github_callback, hcode, hiid, hstate, hdec]
  | ok a =>
  cases hex : exchange_code_for_user_token env.exchangeResponse with
  | exn e => simp [github_callback, hcode, hiid, hstate, hdec, hex]
  | ok tok =>
  cases tok with
  | none => simp [github_callback, hcode, hiid, hstate, hdec, hex]
  | some t =>
  cases hinst : env.installationsResponse with
  | exn e => simp [github_callback, hcode, hiid, hstate, hdec, hex, hinst]
  | ok resp =>
  cases howns : user_owns_installation resp (PyVal.strV (p.installation_id.getD "")) with
  | false => simp [github_callback, hcode, hiid, hstate, hdec, hex, hinst, howns]
  | true => simp [github_callback, hcode, hiid, hstate, hdec, hex, hinst, howns]

/-- C9 (counterexample): a timed-out code-exchange call makes the callback
end in an uncaught transport exception, not in any handled error response:
no `UpstreamUnavailable` handling exists. -/
theorem github_callback_timeout_uncaught :
    (github_callback 7 0 emptyDb pGood envTimeout).1 =
      CallbackResult.pythonError "httpx.ReadTimeout" := by decide

/-- C9 (amended): a transport exception (timeout included) raised by either
outbound call propagates out of the callback handler unhandled, carrying
the raising exception, rather than being mapped to a distinct error. -/
theorem github_callback_transport_exn_propagates (secret now : Nat) (db : Db)
    (p : CallbackParams) (env : Env) (e : String)
    (hp : paramsOk p)
    (ha : ∃ a, decode_state_token secret now (p.state.getD []) = DecodeOutcome.ok a) :
    (env.exchangeResponse = CallResult.exn e →
      (github_callback secret now db p env).1 = CallbackResult.pythonError e) ∧
    ((∃ tok, exchange_code_for_user_token env.exchangeResponse = CallResult.ok (some tok)) →
      env.installationsResponse = CallResult.exn e →
      (github_callback secret now db p env).1 = CallbackResult.pythonError e) := by
  obtain ⟨hc, hi, hs⟩ := hp
  obtain ⟨a, hdec⟩ := ha
  constructor
  · intro hex
    have hex2 : exchange_code_for_user_token env.exchangeResponse = CallResult.exn e := by
      rw [hex]
      rfl
    simp [github_callback, hc, hi, hs, hdec, hex2]
  · rintro ⟨tok, hex⟩ hinst
    simp [github_callback, hc, hi, hs, hdec, hex, hinst]

/-- C9 (witness): a timed-out installation-listing call propagates as an
uncaught exception. -/
theorem github_callback_transport_exn_propagates_witness :
    (github_callback 7 0 emptyDb pGood envTimeoutB).1 =
      CallbackResult.pythonError "httpx.ConnectTimeout" :=
  (github_callback_transport_exn_propagates 7 0 emptyDb pGood envTimeoutB
    "httpx.ConnectTimeout" ⟨rfl, rfl, by decide⟩ ⟨"acct-1", by decide⟩).2
    ⟨"u-tok", by decide⟩ rfl

/-- C10: a listing containing an installation whose id is the integer n is
matched by the claimed id given as the decimal string of n, the two values
differing in type. -/
theorem user_owns_installation_int_id_matches_decimal_string (n : Int) (l : List PyVal)
    (h : PyVal.intV n ∈ l) :
    user_owns_installation { status := 200, installations := some l }
      (PyVal.strV (toString n)) = true ∧
    PyVal.intV n ≠ PyVal.strV (toString n) := by
  constructor
  · rw [user_owns_installation]
    rw [if_neg (by simp)]
    rw [List.any_eq_true]
    refine ⟨PyVal.intV n, ?_, ?_⟩
    · simpa using h
    · simp [pyStr]
  · intro hcontra
    exact PyVal.noConfusion hcontra

/-- C10 (witness): the listing containing the integer id 999 matches the
claimed string id "999". -/
theorem user_owns_installation_int_id_matches_decimal_string_witness :
    user_owns_installation { status := 200, installations := some [PyVal.intV 999] }
      (PyVal.strV (toString (999 : Int))) = true ∧
    PyVal.intV 999 ≠ PyVal.strV (toString (999 : Int)) :=
  user_owns_installation_int_id_matches_decimal_string 999 [PyVal.intV 999] (by decide)

end GhAppServer
